import Mathlib

/-
Verification of the wolfpack per-node communication layer
(src/unnamed/part_000 and src/logic/impl/node-node-interface.go).

The Go code is shallowly embedded as pure Lean functions over an explicit
state record.  Go maps are modelled as association lists with Go map
semantics (lookup first binding, set replaces the binding, delete removes
it); Go channels sends are modelled as explicit output lists; external
collaborators (the geometry grid oracle, the md5 digest primitive and the
ecdsa verification pipeline) are parameters collected in `Oracles`, per the
scope rules of the specification.
-/

/-- shared.Coord: a grid coordinate with integer components. -/
structure Coord where
  x : Int
  y : Int
deriving DecidableEq, Repr

/-- shared.MoveCommit: the hash of a move plus signature components and
the claimed public key, all in wire (string) form. -/
structure MoveCommit where
  moveHash : List Nat
  r : String
  s : String
  pubKey : String
deriving DecidableEq, Repr

/-- Go map lookup on an association list: the value of the first binding
of the key, if any. -/
def lookupKey {κ α : Type} [DecidableEq κ] : List (κ × α) → κ → Option α
  | [], _ => none
  | (k', v) :: rest, k => if k' = k then some v else lookupKey rest k

/-- Go map assignment on an association list: replace the binding of the
key if present, otherwise append a new binding. -/
def insertKey {κ α : Type} [DecidableEq κ] : List (κ × α) → κ → α → List (κ × α)
  | [], k, v => [(k, v)]
  | (k', v') :: rest, k, v =>
    if k' = k then (k, v) :: rest else (k', v') :: insertKey rest k v

/-- Go map delete on an association list: drop every binding of the key
(a Go map holds at most one). -/
def eraseKey {κ α : Type} [DecidableEq κ] : List (κ × α) → κ → List (κ × α)
  | [], _ => []
  | (k', v') :: rest, k =>
    if k' = k then eraseKey rest k else (k', v') :: eraseKey rest k

/-- A Go map can bind each key at most once: the key column of the
association list has no duplicate. -/
def KeysNodup {κ α : Type} (m : List (κ × α)) : Prop := (m.map Prod.fst).Nodup

/-- NodeCommInterface state together with the parts of the externally owned
GameState that the handlers read and write.  `otherNodes` holds the keys of
the OtherNodes map (the connection values are external transport handles);
`acksReceived` is ACKSReceived (seq number to list of acking addresses);
`sequenceNumber` is the package-level sequence counter. -/
structure NodeState where
  otherNodes : List String
  moveCommits : List (String × String)
  acksReceived : List (Nat × List String)
  playerLocs : List (String × Coord)
  playerScores : List (String × Int)
  identifier : String
  localAddr : String
  sequenceNumber : Nat
deriving DecidableEq, Repr

/-- PendingMoveUpdates: one in-flight self-originated move awaiting acks. -/
structure PendingMoveUpdates where
  seq : Nat
  coord : Coord
  rejected : Nat
deriving DecidableEq, Repr

/-- NodeMessage, restricted to the fields the modelled flows set and read
(the gameState and moveCommit pointer fields are nil in every modelled
construction and are omitted). -/
structure NodeMessage where
  identifier : String
  messageType : String
  move : Option Coord
  seq : Nat
  addr : String
deriving DecidableEq, Repr

/-- PendingMessage: an outbound message queued for the roster actor.  The
Go code stores the envelope-wrapped bytes; the causal envelope is an
external pure wrapper, so the payload is modelled unwrapped. -/
structure PendingMessage where
  recipient : String
  message : NodeMessage
deriving DecidableEq, Repr

/-- External collaborators, per the specification scope: the geometry grid
oracle (IsInBounds / IsValidMove), the md5 digest primitive, and the ecdsa
signature verification pipeline of CheckAuthenticityOfMoveCommit. -/
structure Oracles where
  digest : List Nat → List Nat
  isInBounds : Coord → Bool
  isValidMove : Coord → Bool
  verifyCommit : MoveCommit → Bool

/-- Modelled from the spec: the wolferrors package is not under src/; its
typed error constructors follow the error taxonomy of the specification.
The Go constructors carry rendered strings; here each carries the datum it
renders. -/
inductive WolfError where
  | invalidMove (c : Coord)
  | outOfBounds (c : Coord)
  | incorrectPlayer (id : String)
  | unknownSequence (seq : Nat)
  | invalidPreyCapture (c : Coord)
  | invalidScoreUpdate (score : Int)
deriving DecidableEq, Repr

/-- Outcome of a handler whose Go error path can dereference a nil move:
`done` is a normal return carrying the post-state and the returned error,
`crash` is a nil-pointer dereference (runtime panic) carrying the state
after deferred statements ran during unwinding. -/
inductive HandlerRes where
  | done (s : NodeState) (e : Option WolfError)
  | crash (s : NodeState)
deriving DecidableEq, Repr

/-- const REJECTION_MAX = 3 (src/unnamed/part_000 line 80). -/
def REJECTION_MAX : Nat := 3

/-- strconv.AppendInt(..., int64(v), 10): the ASCII bytes of the decimal
rendering of the integer. -/
def decimalBytes (i : Int) : List Nat := (toString i).data.map Char.toNat

/-- Lower-case hex digit, as used by encoding/hex. -/
def hexDigit (d : Nat) : Char :=
  if d < 10 then Char.ofNat (48 + d) else Char.ofNat (87 + d)

/-- hex.EncodeToString: two lower-case hex characters per byte. -/
def hexEncode (bytes : List Nat) : String :=
  String.mk (bytes.foldr (fun b acc => hexDigit (b / 16 % 16) :: hexDigit (b % 16) :: acc) [])

/-- One character of strconv.AppendQuote: printable ASCII passes through,
quote and backslash are escaped; other characters get an escape sequence
(approximated here as a \u escape; no modelled flow reaches this case). -/
def quoteCharBytes (c : Char) : List Nat :=
  if c = '"' then [92, 34]
  else if c = '\\' then [92, 92]
  else if 32 ≤ c.toNat ∧ c.toNat ≤ 126 then [c.toNat]
  else [92, 117, (hexDigit (c.toNat / 4096 % 16)).toNat, (hexDigit (c.toNat / 256 % 16)).toNat,
        (hexDigit (c.toNat / 16 % 16)).toNat, (hexDigit (c.toNat % 16)).toNat]

/-- strconv.AppendQuote: a double-quoted rendering of the identifier. -/
def goQuoteBytes (id : String) : List Nat :=
  [34] ++ id.data.foldr (fun c acc => quoteCharBytes c ++ acc) [] ++ [34]

/-- The byte sequence CalculateHash feeds to the digest: a zero-filled
2048-byte scratch buffer (make([]byte, 2048) is zero-initialised and
AppendInt appends after it) followed by the decimal renderings of X and Y
and the quoted identifier (src/unnamed/part_000 lines 479-490). -/
def hashPayload (m : Coord) (id : String) : List Nat :=
  List.replicate 2048 0 ++ decimalBytes m.x ++ decimalBytes m.y ++ goQuoteBytes id

/-- CalculateHash: the digest of the scratch-buffer payload.  md5 itself is
an external crypto primitive (spec scope) and is the `digest` oracle. -/
def CalculateHash (ext : Oracles) (m : Coord) (id : String) : List Nat :=
  ext.digest (hashPayload m id)

/-- CheckMoveIsValid from src/unnamed/part_000 (bounds check, then
valid-move check, via the external grid manager). -/
def CheckMoveIsValid (ext : Oracles) (move : Coord) : Option WolfError :=
  if !(ext.isInBounds move) then some (.outOfBounds move)
  else if !(ext.isValidMove move) then some (.invalidMove move)
  else none

/-- CheckMoveIsValid from src/logic/impl/node-node-interface.go
(valid-move check only). -/
def CheckMoveIsValidGo (ext : Oracles) (move : Coord) : Option WolfError :=
  if !(ext.isValidMove move) then some (.invalidMove move)
  else none

/-- CheckMoveCommitAgainstMove: hex-encode the hash of (move, identifier)
and scan the MoveCommits map for an entry whose key is the identifier and
whose value is that hex string. -/
def CheckMoveCommitAgainstMove (ext : Oracles) (s : NodeState) (identifier : String)
    (move : Coord) : Bool :=
  let hash := hexEncode (CalculateHash ext move identifier)
  s.moveCommits.any (fun p => p.2 == hash && p.1 == identifier)

/-- CheckGotPrey: the claimed coordinate must equal the current prey
location (a missing "prey" binding reads as the zero-value coordinate,
per Go map indexing). -/
def CheckGotPrey (s : NodeState) (move : Coord) : Option WolfError :=
  let prey := (lookupKey s.playerLocs "prey").getD { x := 0, y := 0 }
  if move.x = prey.x ∧ move.y = prey.y then none
  else some (.invalidPreyCapture move)

/-- HandleReceivedAck: unknown-sequence error when the ledger has no entry
for the sequence number, otherwise append the sender address to the entry.
Returns the post-state and the returned error. -/
def HandleReceivedAck (s : NodeState) (addr : String) (seq : Nat) :
    NodeState × Option WolfError :=
  match lookupKey s.acksReceived seq with
  | none => (s, some (.unknownSequence seq))
  | some values =>
    ({ s with acksReceived := insertKey s.acksReceived seq (values ++ [addr]) }, none)

/-- HandleReceivedMoveCommit: on authentic commitments, store the
hex-encoded hash keyed by the sender identifier only if no commitment is
stored for that identifier; on verification failure return
incorrect-player and store nothing. -/
def HandleReceivedMoveCommit (ext : Oracles) (s : NodeState) (identifier : String)
    (mc : MoveCommit) : NodeState × Option WolfError :=
  if ext.verifyCommit mc then
    match lookupKey s.moveCommits identifier with
    | some _ => (s, none)
    | none => ({ s with moveCommits := insertKey s.moveCommits identifier (hexEncode mc.moveHash) }, none)
  else (s, some (.incorrectPlayer identifier))

/-- HandleReceivedMoveL (lockstep path, src/unnamed/part_000 lines 384-400;
the node-node-interface.go copy differs only by PlayerLocs locking and its
CheckMoveIsValid variant).  The deferred delete of the commitment runs on
every exit path, the nil-dereference panic path included: building the
invalid-move error string evaluates move.X on a nil move. -/
def HandleReceivedMoveL (ext : Oracles) (s : NodeState) (identifier : String)
    (move : Option Coord) : HandlerRes :=
  let finish := fun (st : NodeState) => { st with moveCommits := eraseKey st.moveCommits identifier }
  match move with
  | some m =>
    if CheckMoveCommitAgainstMove ext s identifier m then
      match CheckMoveIsValid ext m with
      | some e => .done (finish s) (some e)
      | none => .done (finish { s with playerLocs := insertKey s.playerLocs identifier m }) none
    else .done (finish s) (some (.invalidMove m))
  | none => .crash (finish s)

/-- SendACK: enqueue an "ack" message carrying the given sequence number,
addressed to the given identifier. -/
def SendACK (s : NodeState) (identifier : String) (seq : Nat) : PendingMessage :=
  { recipient := identifier,
    message := { messageType := "ack", identifier := s.identifier, move := none,
                 seq := seq, addr := s.localAddr } }

/-- HandleReceivedMoveNL (non-lockstep path, src/unnamed/part_000 lines
403-415): validate, apply the coordinate for the sender, and send an ACK
with the received sequence number; on validation failure return the error
and send nothing.  A nil move reaches the error constructor's nil
dereference. -/
def HandleReceivedMoveNL (ext : Oracles) (s : NodeState) (identifier : String)
    (move : Option Coord) (seq : Nat) : HandlerRes × List PendingMessage :=
  match move with
  | some m =>
    match CheckMoveIsValid ext m with
    | some e => (.done s (some e), [])
    | none =>
      (.done { s with playerLocs := insertKey s.playerLocs identifier m } none,
       [SendACK s identifier seq])
  | none => (.crash s, [])

/-- HandleCapturedPreyRequest (node-node-interface.go lines 463-478): prey
location check, grid check, then the score check `playerScore !=
playerScore + 1`; the final `playerScore = playerScore + 1` assigns a local
copy, so PlayerScores is never written.  Returns post-state and error. -/
def HandleCapturedPreyRequest (ext : Oracles) (s : NodeState) (identifier : String)
    (move : Coord) (score : Int) : NodeState × Option WolfError :=
  match CheckGotPrey s move with
  | some e => (s, some e)
  | none =>
    match CheckMoveIsValidGo ext move with
    | some e => (s, some e)
    | none =>
      let playerScore : Int := (lookupKey s.playerScores identifier).getD 0
      if playerScore ≠ playerScore + 1 then (s, some (.invalidScoreUpdate score))
      else (s, none)

/-- Result of one iteration of the ManageAcks loop body: the new state, the
move re-enqueued on MovesToSend (if any), and the addresses sent to
NodesToDelete. -/
structure AckStepResult where
  state : NodeState
  requeued : Option PendingMoveUpdates
  evicted : List String
deriving DecidableEq, Repr

/-- One iteration of ManageAcks (src/unnamed/part_000 lines 171-205) on a
move taken from MovesToSend.  The quorum test is len(acks) > len(peers);
on quorum the coordinate is applied for this node's identifier, peers
absent from the ack list are enqueued for deletion (the sleep and re-read
of the entry are sequentialised), and the ledger entry is deleted; without
quorum the move retries while rejected < REJECTION_MAX, else the entry is
deleted. -/
def ManageAcksStep (s : NodeState) (mv : PendingMoveUpdates) : AckStepResult :=
  match lookupKey s.acksReceived mv.seq with
  | some values =>
    if values.length > s.otherNodes.length then
      let s1 := { s with playerLocs := insertKey s.playerLocs s.identifier mv.coord }
      let evict := s1.otherNodes.filter (fun a => !(values.contains a))
      { state := { s1 with acksReceived := eraseKey s1.acksReceived mv.seq },
        requeued := none, evicted := evict }
    else if mv.rejected < REJECTION_MAX then
      { state := s,
        requeued := some { seq := mv.seq, coord := mv.coord, rejected := mv.rejected + 1 },
        evicted := [] }
    else
      { state := { s with acksReceived := eraseKey s.acksReceived mv.seq },
        requeued := none, evicted := [] }
  | none => { state := s, requeued := none, evicted := [] }

/-- SendMoveToNodes (src/unnamed/part_000 lines 324-342): nil moves return
immediately; otherwise the sequence counter is incremented, a "move"
message is enqueued to the roster actor for broadcast, and a pending move
is queued for the quorum tracker. -/
def SendMoveToNodes (s : NodeState) (move : Option Coord) :
    NodeState × List PendingMessage × List PendingMoveUpdates :=
  match move with
  | none => (s, [], [])
  | some m =>
    let seq := s.sequenceNumber + 1
    let msg : NodeMessage :=
      { messageType := "move", identifier := s.identifier, move := some m,
        addr := s.localAddr, seq := seq }
    ({ s with sequenceNumber := seq },
     [{ recipient := "all", message := msg }],
     [{ seq := seq, coord := m, rejected := 0 }])

/-- Oracle instantiation for concrete test states: identity digest,
everything in bounds and valid, every commitment authentic. -/
def oracleAll : Oracles :=
  { digest := fun l => l, isInBounds := fun _ => true,
    isValidMove := fun _ => true, verifyCommit := fun _ => true }

/-- A fresh node state for concrete instances. -/
def baseState : NodeState :=
  { otherNodes := [], moveCommits := [], acksReceived := [], playerLocs := [],
    playerScores := [], identifier := "self", localAddr := "addr0", sequenceNumber := 0 }

/-- Concrete state: prey at (5,5) and claimant "7" with recorded score 2. -/
def c1s : NodeState :=
  { baseState with playerLocs := [("prey", { x := 5, y := 5 })], playerScores := [("7", 2)] }

/-- Concrete state: roster of three peers, ledger entry for seq 7 with two acks. -/
def c5s : NodeState :=
  { baseState with otherNodes := ["a", "b", "c"], acksReceived := [(7, ["a", "b"])] }

/-- Concrete state: one peer "a", ledger entry for seq 1 already holding one
ack from "a". -/
def c6s : NodeState :=
  { baseState with
    otherNodes := ["a"],
    acksReceived := [(1, ["a"])],
    playerLocs := [("self", { x := 0, y := 0 })] }

/-- A concrete move commitment. -/
def mc0 : MoveCommit := { moveHash := [171, 205], r := "1", s := "2", pubKey := "k" }

/-- Looking a key up after insertKey finds the inserted value. -/
theorem lookupKey_insertKey_self {κ α : Type} [DecidableEq κ] (m : List (κ × α)) (k : κ) (v : α) :
    lookupKey (insertKey m k v) k = some v := by
  induction m with
  | nil => simp [insertKey, lookupKey]
  | cons p rest ih =>
    obtain ⟨k', v'⟩ := p
    by_cases h : k' = k
    · simp [insertKey, h, lookupKey]
    · simp [insertKey, h, lookupKey, ih]

/-- Looking a key up after eraseKey finds nothing. -/
theorem lookupKey_eraseKey_self {κ α : Type} [DecidableEq κ] (m : List (κ × α)) (k : κ) :
    lookupKey (eraseKey m k) k = none := by
  induction m with
  | nil => rfl
  | cons p rest ih =>
    obtain ⟨k', v'⟩ := p
    by_cases h : k' = k
    · simpa [eraseKey, h] using ih
    · simp [eraseKey, h, lookupKey, ih]

/-- A key that lookup misses is not in the key column. -/
theorem not_mem_keys_of_lookupKey_none {κ α : Type} [DecidableEq κ] (m : List (κ × α)) (k : κ)
    (h : lookupKey m k = none) : k ∉ m.map Prod.fst := by
  induction m with
  | nil => simp
  | cons p rest ih =>
    obtain ⟨k', v'⟩ := p
    by_cases hk : k' = k
    · simp [lookupKey, hk] at h
    · simp only [lookupKey, if_neg hk] at h
      simp only [List.map_cons, List.mem_cons]
      push_neg
      exact ⟨fun he => hk he.symm, ih h⟩

/-- Inserting an absent key appends it to the key column. -/
theorem insertKey_keys_of_lookup_none {κ α : Type} [DecidableEq κ] (m : List (κ × α)) (k : κ)
    (v : α) (h : lookupKey m k = none) :
    (insertKey m k v).map Prod.fst = m.map Prod.fst ++ [k] := by
  induction m with
  | nil => simp [insertKey]
  | cons p rest ih =>
    obtain ⟨k', v'⟩ := p
    by_cases hk : k' = k
    · simp [lookupKey, hk] at h
    · simp only [lookupKey, if_neg hk] at h
      simp [insertKey, hk, ih h]

/-- Inserting an absent key preserves key distinctness. -/
theorem keysNodup_insertKey {κ α : Type} [DecidableEq κ] (m : List (κ × α)) (k : κ) (v : α)
    (h : lookupKey m k = none) (hn : KeysNodup m) : KeysNodup (insertKey m k v) := by
  unfold KeysNodup at hn ⊢
  rw [insertKey_keys_of_lookup_none m k v h]
  have hk := not_mem_keys_of_lookupKey_none m k h
  exact hn.append (List.nodup_singleton k)
    (by intro x hx hx'; simp at hx'; exact hk (hx' ▸ hx))

/-- C10: SendMoveToNodes with a nil move is a complete no-op: the state
(sequence counter included) is unchanged, no outbound message is enqueued
for the roster actor, and no pending move is queued for quorum tracking. -/
theorem SendMoveToNodes_nil_noop (s : NodeState) : SendMoveToNodes s none = (s, [], []) := rfl

/-- C3 (code bug): a received "move" from "prey" whose move is nil does not
return an invalid-move error: building the error message dereferences the
nil move pointer, so the handler panics; only the deferred commitment
delete still runs during unwinding. -/
theorem HandleReceivedMoveL_nil_crashes (ext : Oracles) (s : NodeState) (identifier : String) :
    HandleReceivedMoveL ext s identifier none
      = .crash { s with moveCommits := eraseKey s.moveCommits identifier } := rfl

/-- C2: one ManageAcks iteration applies the pending move's coordinate to
this node's entry of the local game state exactly when the ledger holds an
entry for its sequence number whose recorded ack count is strictly greater
than the current peer-roster size; with an equal or smaller count, or no
entry, the player locations are left unchanged. -/
theorem ManageAcksStep_commit_characterization (s : NodeState) (mv : PendingMoveUpdates) :
    (ManageAcksStep s mv).state.playerLocs =
      match lookupKey s.acksReceived mv.seq with
      | some values =>
        if values.length > s.otherNodes.length
        then insertKey s.playerLocs s.identifier mv.coord
        else s.playerLocs
      | none => s.playerLocs := by
  unfold ManageAcksStep
  cases h : lookupKey s.acksReceived mv.seq with
  | none => rfl
  | some values =>
    by_cases hq : values.length > s.otherNodes.length
    · simp [hq]
    · simp only [if_neg hq]
      split <;> rfl

/-- The hash payloads of the distinct coordinates (1,23) and (12,3)
coincide for every identifier: the decimal renderings of X and Y are
concatenated with no separator. -/
theorem hashPayload_collision (i : String) :
    hashPayload { x := 1, y := 23 } i = hashPayload { x := 12, y := 3 } i := by
  show List.replicate 2048 0 ++ decimalBytes 1 ++ decimalBytes 23 ++ goQuoteBytes i
      = List.replicate 2048 0 ++ decimalBytes 12 ++ decimalBytes 3 ++ goQuoteBytes i
  have h : decimalBytes (1 : Int) ++ decimalBytes (23 : Int)
      = decimalBytes (12 : Int) ++ decimalBytes (3 : Int) := by decide
  have key : (List.replicate 2048 0 ++ decimalBytes 1) ++ decimalBytes 23
      = (List.replicate 2048 0 ++ decimalBytes 12) ++ decimalBytes 3 := by
    rw [List.append_assoc, List.append_assoc, h]
  exact congrArg (fun l => l ++ goQuoteBytes i) key

/-- C4 counterexample: (1,23) and (12,3) are distinct coordinates, yet
CalculateHash sends both, with identifier "prey", to the same digest
(exhibited with the identity digest oracle; the two hash payloads are
equal byte for byte, so any digest maps them to the same value). -/
theorem CalculateHash_collision_cex :
    decide (({ x := 1, y := 23 } : Coord) = { x := 12, y := 3 }) = false ∧
    CalculateHash oracleAll { x := 1, y := 23 } "prey"
      = CalculateHash oracleAll { x := 12, y := 3 } "prey" :=
  ⟨by decide, congrArg oracleAll.digest (hashPayload_collision "prey")⟩

/-- C4 amended: CalculateHash is a pure deterministic function of
(x, y, identifier) and the digest primitive, but it is not collision-free
on distinct coordinates: coordinates whose concatenated decimal renderings
coincide, such as (1,23) and (12,3), receive identical digests for every
identifier and every digest function. -/
theorem CalculateHash_collides_on_equal_payload (ext : Oracles) (i : String) :
    CalculateHash ext { x := 1, y := 23 } i = CalculateHash ext { x := 12, y := 3 } i ∧
    decide (({ x := 1, y := 23 } : Coord) = { x := 12, y := 3 }) = false :=
  ⟨congrArg ext.digest (hashPayload_collision i), by decide⟩

/-- C1 (code bug): whenever the prey-location check and the grid check
pass, HandleCapturedPreyRequest returns an invalid-score-update error and
leaves the state — the claimant's recorded score included — unchanged: the
code compares playerScore with playerScore + 1, which always differs, so
the success branch is unreachable, and the increment writes a local copy
of the score, never the map. -/
theorem HandleCapturedPreyRequest_always_rejects (ext : Oracles) (s : NodeState)
    (identifier : String) (move : Coord) (score : Int)
    (h1 : CheckGotPrey s move = none) (h2 : CheckMoveIsValidGo ext move = none) :
    HandleCapturedPreyRequest ext s identifier move score
      = (s, some (.invalidScoreUpdate score)) := by
  have hne : ∀ z : Int, z ≠ z + 1 := by intro z; omega
  simp [HandleCapturedPreyRequest, h1, h2, hne]

/-- C1 witness: prey at (5,5), claimant "7" with recorded score 2, a
grid-valid capture claim at (5,5) with claimed score 3 = 2 + 1: the
handler still returns invalid-score-update and changes nothing. -/
theorem HandleCapturedPreyRequest_always_rejects_witness :
    HandleCapturedPreyRequest oracleAll c1s "7" { x := 5, y := 5 } 3
      = (c1s, some (.invalidScoreUpdate 3)) :=
  HandleCapturedPreyRequest_always_rejects oracleAll c1s "7" { x := 5, y := 5 } 3
    (by decide) (by decide)

/-- C5: for a tracked pending move without quorum, a rejection count
strictly below REJECTION_MAX means the move is re-enqueued with the count
incremented and nothing else changes; once the count has reached
REJECTION_MAX the ledger entry for its sequence number is discarded, the
move is not re-enqueued, and the player locations are untouched. -/
theorem ManageAcksStep_retry_abandon (s : NodeState) (mv : PendingMoveUpdates)
    (values : List String)
    (hentry : lookupKey s.acksReceived mv.seq = some values)
    (hnoq : ¬ values.length > s.otherNodes.length) :
    (mv.rejected < REJECTION_MAX →
      ManageAcksStep s mv =
        { state := s,
          requeued := some { seq := mv.seq, coord := mv.coord, rejected := mv.rejected + 1 },
          evicted := [] })
    ∧ (REJECTION_MAX ≤ mv.rejected →
      ManageAcksStep s mv =
        { state := { s with acksReceived := eraseKey s.acksReceived mv.seq },
          requeued := none, evicted := [] }
      ∧ lookupKey (ManageAcksStep s mv).state.acksReceived mv.seq = none
      ∧ (ManageAcksStep s mv).state.playerLocs = s.playerLocs
      ∧ (ManageAcksStep s mv).requeued = none) := by
  constructor
  · intro hlt
    unfold ManageAcksStep
    rw [hentry]
    simp [hnoq, hlt]
  · intro hge
    have hnlt : ¬ mv.rejected < REJECTION_MAX := by omega
    have heq : ManageAcksStep s mv =
        { state := { s with acksReceived := eraseKey s.acksReceived mv.seq },
          requeued := none, evicted := [] } := by
      unfold ManageAcksStep
      rw [hentry]
      simp [hnoq, hnlt]
    refine ⟨heq, ?_, ?_, ?_⟩
    · rw [heq]
      exact lookupKey_eraseKey_self s.acksReceived mv.seq
    · rw [heq]
    · rw [heq]

/-- C5 witness: with three peers and two recorded acks for sequence 7,
rejection count 1 retries with count 2, and rejection count 3 abandons,
deleting the ledger entry. -/
theorem ManageAcksStep_retry_abandon_witness :
    ManageAcksStep c5s { seq := 7, coord := { x := 2, y := 2 }, rejected := 1 } =
      { state := c5s,
        requeued := some { seq := 7, coord := { x := 2, y := 2 }, rejected := 2 },
        evicted := [] } ∧
    ManageAcksStep c5s { seq := 7, coord := { x := 2, y := 2 }, rejected := 3 } =
      { state := { c5s with acksReceived := eraseKey c5s.acksReceived 7 },
        requeued := none, evicted := [] } :=
  ⟨(ManageAcksStep_retry_abandon c5s { seq := 7, coord := { x := 2, y := 2 }, rejected := 1 }
      ["a", "b"] (by decide) (by decide)).1 (by decide),
   ((ManageAcksStep_retry_abandon c5s { seq := 7, coord := { x := 2, y := 2 }, rejected := 3 }
      ["a", "b"] (by decide) (by decide)).2 (by decide)).1⟩

/-- C6 counterexample: with roster ["a"] and ledger entry (1, ["a"]),
quorum is not met (1 > 1 fails) and ManageAcks leaves the player locations
alone; a second ack from the same already-recorded peer "a" succeeds and
grows the stored entry to ["a", "a"], after which the same ManageAcks
evaluation applies the move (2 > 1): a repeated ack from one peer both
changed the stored entry and advanced the move to quorum. -/
theorem HandleReceivedAck_duplicate_advances_cex :
    (HandleReceivedAck c6s "a" 1).2 = none ∧
    (HandleReceivedAck c6s "a" 1).1.acksReceived = [(1, ["a", "a"])] ∧
    (ManageAcksStep c6s { seq := 1, coord := { x := 4, y := 4 }, rejected := 0 }).state.playerLocs
      = c6s.playerLocs ∧
    (ManageAcksStep (HandleReceivedAck c6s "a" 1).1
        { seq := 1, coord := { x := 4, y := 4 }, rejected := 0 }).state.playerLocs
      = [("self", { x := 4, y := 4 })] := by decide

/-- C6 amended: the AckLedger entry for a sequence number is an append
list, not a set: an ack arriving from a peer already recorded for that
sequence is appended again, the recorded ack count grows by one, and
quorum evaluation — which compares that count with the roster size — can
therefore be advanced by repeated acks from a single peer. -/
theorem HandleReceivedAck_appends_duplicate (s : NodeState) (addr : String) (seq : Nat)
    (values : List String)
    (hentry : lookupKey s.acksReceived seq = some values) (hmem : addr ∈ values) :
    HandleReceivedAck s addr seq
      = ({ s with acksReceived := insertKey s.acksReceived seq (values ++ [addr]) }, none)
    ∧ lookupKey (HandleReceivedAck s addr seq).1.acksReceived seq = some (values ++ [addr])
    ∧ (values ++ [addr]).length = values.length + 1 := by
  have heq : HandleReceivedAck s addr seq
      = ({ s with acksReceived := insertKey s.acksReceived seq (values ++ [addr]) }, none) := by
    unfold HandleReceivedAck
    rw [hentry]
  refine ⟨heq, ?_, by simp⟩
  rw [heq]
  exact lookupKey_insertKey_self s.acksReceived seq (values ++ [addr])

/-- C6 witness: peer "a" is already recorded for sequence 1; its repeated
ack is appended, yielding the two-element entry ["a", "a"]. -/
theorem HandleReceivedAck_appends_duplicate_witness :
    HandleReceivedAck c6s "a" 1
      = ({ c6s with acksReceived := insertKey c6s.acksReceived 1 (["a"] ++ ["a"]) }, none) :=
  (HandleReceivedAck_appends_duplicate c6s "a" 1 ["a"] (by decide) (by decide)).1

/-- C7: HandleReceivedAck returns an unknown-sequence error exactly when
the ledger has no entry for the sequence number, and in that case leaves
the state — hence the ledger — unchanged, creating no entry; when an
entry exists it appends the sender's address to that entry and returns no
error. -/
theorem HandleReceivedAck_unknown_seq_spec (s : NodeState) (addr : String) (seq : Nat) :
    ((HandleReceivedAck s addr seq).2 = some (.unknownSequence seq)
      ↔ lookupKey s.acksReceived seq = none)
    ∧ (lookupKey s.acksReceived seq = none → (HandleReceivedAck s addr seq).1 = s)
    ∧ (∀ values, lookupKey s.acksReceived seq = some values →
        HandleReceivedAck s addr seq
          = ({ s with acksReceived := insertKey s.acksReceived seq (values ++ [addr]) }, none)) := by
  unfold HandleReceivedAck
  cases h : lookupKey s.acksReceived seq with
  | none => simp
  | some values => simp

/-- C7 witness: an ack for the never-submitted sequence 9 fails and leaves
the state untouched; an ack for the tracked sequence 7 appends "d". -/
theorem HandleReceivedAck_unknown_seq_spec_witness :
    (HandleReceivedAck c5s "d" 9).1 = c5s ∧
    HandleReceivedAck c5s "d" 7
      = ({ c5s with acksReceived := insertKey c5s.acksReceived 7 (["a", "b"] ++ ["d"]) }, none) :=
  ⟨(HandleReceivedAck_unknown_seq_spec c5s "d" 9).2.1 (by decide),
   (HandleReceivedAck_unknown_seq_spec c5s "d" 7).2.2 ["a", "b"] (by decide)⟩

/-- C8: HandleReceivedMoveCommit stores the received commitment, keyed by
the sender identifier, only when verification succeeds and no commitment
is currently stored for that identifier (first-writer-wins: an existing
commitment is left unchanged); on verification failure it returns an
incorrect-player error and stores nothing; and it preserves the
one-commitment-per-identifier invariant of the commitment map. -/
theorem HandleReceivedMoveCommit_spec (ext : Oracles) (s : NodeState) (identifier : String)
    (mc : MoveCommit) :
    (ext.verifyCommit mc = false →
      HandleReceivedMoveCommit ext s identifier mc = (s, some (.incorrectPlayer identifier)))
    ∧ (∀ h, ext.verifyCommit mc = true → lookupKey s.moveCommits identifier = some h →
      HandleReceivedMoveCommit ext s identifier mc = (s, none))
    ∧ (ext.verifyCommit mc = true → lookupKey s.moveCommits identifier = none →
      HandleReceivedMoveCommit ext s identifier mc
        = ({ s with
              moveCommits := insertKey s.moveCommits identifier (hexEncode mc.moveHash) }, none))
    ∧ (KeysNodup s.moveCommits →
      KeysNodup (HandleReceivedMoveCommit ext s identifier mc).1.moveCommits) := by
  refine ⟨?_, ?_, ?_, ?_⟩
  · intro hv
    simp [HandleReceivedMoveCommit, hv]
  · intro h hv hl
    simp [HandleReceivedMoveCommit, hv, hl]
  · intro hv hl
    simp [HandleReceivedMoveCommit, hv, hl]
  · intro hn
    unfold HandleReceivedMoveCommit
    cases hv : ext.verifyCommit mc
    · simpa using hn
    · cases hl : lookupKey s.moveCommits identifier with
      | some h => simpa using hn
      | none =>
        simpa using keysNodup_insertKey s.moveCommits identifier (hexEncode mc.moveHash) hl hn

/-- C8 witness: an authentic commitment from "3" with no commitment stored
for "3" is stored under "3". -/
theorem HandleReceivedMoveCommit_spec_witness :
    HandleReceivedMoveCommit oracleAll baseState "3" mc0
      = ({ baseState with
            moveCommits := insertKey baseState.moveCommits "3" (hexEncode mc0.moveHash) }, none) :=
  (HandleReceivedMoveCommit_spec oracleAll baseState "3" mc0).2.2.1 (by decide) (by decide)

/-- C9: a non-lockstep move that passes grid validation is applied to the
game state for the sender, and exactly one ACK — addressed to the sender
and carrying the received sequence number — is enqueued; when validation
fails, the checker's error (always of the invalid-move family:
invalid-move or out-of-bounds) is returned, nothing is applied and no ACK
is sent. -/
theorem HandleReceivedMoveNL_spec (ext : Oracles) (s : NodeState) (identifier : String)
    (m : Coord) (seq : Nat) :
    (CheckMoveIsValid ext m = none →
      HandleReceivedMoveNL ext s identifier (some m) seq
        = (.done { s with playerLocs := insertKey s.playerLocs identifier m } none,
           [SendACK s identifier seq]))
    ∧ (∀ e, CheckMoveIsValid ext m = some e →
        HandleReceivedMoveNL ext s identifier (some m) seq = (.done s (some e), []))
    ∧ (∀ e, CheckMoveIsValid ext m = some e →
        e = .invalidMove m ∨ e = .outOfBounds m)
    ∧ (SendACK s identifier seq).recipient = identifier
    ∧ (SendACK s identifier seq).message.seq = seq
    ∧ (SendACK s identifier seq).message.messageType = "ack" := by
  refine ⟨?_, ?_, ?_, rfl, rfl, rfl⟩
  · intro hv
    simp [HandleReceivedMoveNL, hv]
  · intro e hv
    simp [HandleReceivedMoveNL, hv]
  · intro e hv
    unfold CheckMoveIsValid at hv
    by_cases hb : ext.isInBounds m
    · by_cases hm2 : ext.isValidMove m
      · simp [hb, hm2] at hv
      · simp [hb, hm2] at hv
        exact Or.inl hv.symm
    · simp [hb] at hv
      exact Or.inr hv.symm

/-- C9 witness: a grid-valid move (2,3) from "4" with sequence 11 is
applied for "4" and acknowledged to "4" with sequence 11. -/
theorem HandleReceivedMoveNL_spec_witness :
    HandleReceivedMoveNL oracleAll baseState "4" (some { x := 2, y := 3 }) 11
      = (.done { baseState with
            playerLocs := insertKey baseState.playerLocs "4" { x := 2, y := 3 } } none,
         [SendACK baseState "4" 11]) :=
  (HandleReceivedMoveNL_spec oracleAll baseState "4" { x := 2, y := 3 } 11).1 (by decide)
